import Mathlib

/-!
Verification of the requisition backend (src/backend/app.py) against its
specification. The Flask/PostgreSQL application is shallowly embedded:
the requisition store is a list of records, JSON fields are `Option String`
(with `none` for an absent key / SQL NULL), timestamps are `Nat`, and
Python truthiness / string helpers are reproduced exactly.
-/

namespace Requis

/-- Python truthiness for an optional string: `None` and `""` are falsy. -/
def truthy : Option String → Bool
  | none => false
  | some s => !(s == "")

/-- The result of Python `str(value)` on an optional string (`str(None) = "None"`). -/
def pyStr : Option String → String
  | none => "None"
  | some s => s

/-- Python `a or default` on an optional string: the value when truthy, else the default. -/
def pyOrDefault (o : Option String) (d : String) : String :=
  match o with
  | none => d
  | some s => if s == "" then d else s

/-- An ASCII apostrophe, used to build error messages literally as the code does. -/
def squote : String := String.singleton '\x27'

/-- Replacement of each underscore by a space (`.replace('_', ' ')` for a
one-character pattern is exactly a character map). -/
def underscoreToSpace (s : String) : String :=
  String.mk (s.data.map (fun c => if c == '_' then ' ' else c))

/-- Python `str.capitalize()`: first character uppercased, the rest lowercased. -/
def pyCapitalize (s : String) : String :=
  match s.data with
  | [] => ""
  | c :: rest => String.mk (c.toUpper :: rest.map Char.toLower)

/-- Helper for `pyTitle`: the Boolean tracks whether the previous character was a letter. -/
def pyTitleGo : List Char → Bool → List Char
  | [], _ => []
  | c :: cs, prevAlpha =>
    if c.isAlpha then
      (if prevAlpha then c.toLower else c.toUpper) :: pyTitleGo cs true
    else
      c :: pyTitleGo cs false

/-- Python `str.title()`: each maximal run of letters gets an initial capital,
subsequent letters lowercased; non-letters pass through and restart a word. -/
def pyTitle (s : String) : String := String.mk (pyTitleGo s.data false)

/-- A row of the `requisitions` table. Nullable columns are `Option`;
`created_at` is always set on insert, so it is a plain `Nat` timestamp. -/
structure Requisition where
  id : String
  title : Option String
  description : Option String
  requisition_date : Option String
  basin : Option String
  block : Option String
  area : Option String
  dimension : Option String
  return_date : Option String
  data_type : Option String
  objective : Option String
  remarks : Option String
  user_name : Option String
  user_designation : Option String
  user_cpf_no : Option String
  user_mobile_no : Option String
  user_group : Option String
  requested_by_user_id : Option String
  requested_by_user_cpf_id : Option String
  status : String
  created_at : Nat
  approved_by_level2_user_id : Option String
  approved_by_level2_user_cpf_id : Option String
  approved_by_level2_user_name : Option String
  decision_at : Option Nat
  deriving Repr, DecidableEq

/-- The requisition store: the rows of the `requisitions` table in insertion order. -/
abbrev Store := List Requisition

/-- The error taxonomy relevant to the requisition endpoints: HTTP 400
(validation) versus HTTP 404 (not found), each carrying the JSON message. -/
inductive RErr where
  | validation (msg : String)
  | notFound (msg : String)
  deriving Repr, DecidableEq

/-- The JSON body of a Submit request: each field is present (`some`) or absent (`none`). -/
structure SubmitInput where
  requisitionDate : Option String
  basin : Option String
  block : Option String
  area : Option String
  dimension : Option String
  returnDate : Option String
  dataType : Option String
  objective : Option String
  remarks : Option String
  userName : Option String
  userDesignation : Option String
  userCPFNo : Option String
  userMobileNo : Option String
  userGroup : Option String
  requestedByUserId : Option String
  requestedByUserCpfId : Option String
  title : Option String
  description : Option String
  deriving Repr, DecidableEq

/-- The mandatory-field key list of `create_requisition`, in source order. -/
def mandatory_fields : List String := ["basin", "user_cpf_no", "user_mobile_no", "user_group"]

/-- The value the `requisition_data` dict holds under a mandatory-field key. -/
def mandatoryValue (inp : SubmitInput) (f : String) : Option String :=
  if f == "basin" then inp.basin
  else if f == "user_cpf_no" then inp.userCPFNo
  else if f == "user_mobile_no" then inp.userMobileNo
  else if f == "user_group" then inp.userGroup
  else none

/-- The validation message of `create_requisition`:
`"Mandatory field 'X' is missing"` with `X = field.replace('_',' ').capitalize()`. -/
def missingMsg (f : String) : String :=
  "Mandatory field " ++ squote ++ pyCapitalize (underscoreToSpace f) ++ squote ++ " is missing"

/-- The default title `f"Requisition for {basin} - {area or 'N/A'}"`. -/
def titleDefault (inp : SubmitInput) : String :=
  "Requisition for " ++ pyStr inp.basin ++ " - " ++ pyOrDefault inp.area "N/A"

/-- `data.get('title', default)`: the default fires only when the key is absent. -/
def computedTitle (inp : SubmitInput) : Option String :=
  match inp.title with
  | some t => some t
  | none => some (titleDefault inp)

/-- `data.get('description', data.get('objective'))`. -/
def computedDescription (inp : SubmitInput) : Option String :=
  match inp.description with
  | some d => some d
  | none => inp.objective

/-- `create_requisition` (POST /api/requisitions): validates the four mandatory
fields in order, then inserts one row with `status = 'pending_level2'`,
`created_at = now`, a fresh id, and the decision columns left NULL.
`newId` models the `uuid.uuid4()` draw and `now` models `datetime.now()`. -/
def create_requisition (store : Store) (inp : SubmitInput) (newId : String) (now : Nat) :
    Except RErr Requisition × Store :=
  match mandatory_fields.find? (fun f => !truthy (mandatoryValue inp f)) with
  | some f => (.error (.validation (missingMsg f)), store)
  | none =>
    let r : Requisition :=
      { id := newId
        title := computedTitle inp
        description := computedDescription inp
        requisition_date := inp.requisitionDate
        basin := inp.basin
        block := inp.block
        area := inp.area
        dimension := inp.dimension
        return_date := inp.returnDate
        data_type := inp.dataType
        objective := inp.objective
        remarks := inp.remarks
        user_name := inp.userName
        user_designation := inp.userDesignation
        user_cpf_no := inp.userCPFNo
        user_mobile_no := inp.userMobileNo
        user_group := inp.userGroup
        requested_by_user_id := inp.requestedByUserId
        requested_by_user_cpf_id := inp.requestedByUserCpfId
        status := "pending_level2"
        created_at := now
        approved_by_level2_user_id := none
        approved_by_level2_user_cpf_id := none
        approved_by_level2_user_name := none
        decision_at := none }
    (.ok r, store ++ [r])

/-- `update_requisition_status` (PUT /api/requisitions/&lt;id&gt;): rejects a falsy
status with 400, then runs `UPDATE ... WHERE id = %s` setting the status, the
three caller-supplied decider columns, and `decision_at = now`; a zero row
count yields 404 and no row was changed. -/
def update_requisition_status (store : Store) (reqId : String) (newStatus : Option String)
    (dId dCpf dName : Option String) (now : Nat) : Except RErr Unit × Store :=
  if !truthy newStatus then
    (.error (.validation "New status is required"), store)
  else
    let updated := store.map (fun r =>
      if r.id == reqId then
        { r with
          status := pyStr newStatus
          approved_by_level2_user_id := dId
          approved_by_level2_user_cpf_id := dCpf
          approved_by_level2_user_name := dName
          decision_at := some now }
      else r)
    if store.any (fun r => r.id == reqId) then
      (.ok (), updated)
    else
      (.error (.notFound "Requisition not found"), store)

/-- All suffixes of a character list, longest first, ending with `[]`. -/
def tailsList : List Char → List (List Char)
  | [] => [[]]
  | c :: cs => (c :: cs) :: tailsList cs

/-- SQL LIKE pattern matching on character lists: `%` matches any sequence
(realized by trying every suffix of the subject), `_` any single character,
backslash escapes the next pattern character; a trailing backslash is an
invalid pattern and matches nothing. -/
def likeMatch : List Char → List Char → Bool
  | [], s => s.isEmpty
  | '\\' :: ps, s =>
    match ps, s with
    | p :: ps', c :: s' => p == c && likeMatch ps' s'
    | _, _ => false
  | '%' :: ps, s => (tailsList s).any (fun s' => likeMatch ps s')
  | '_' :: ps, s =>
    match s with
    | [] => false
    | _ :: s' => likeMatch ps s'
  | p :: ps, s =>
    match s with
    | [] => false
    | c :: s' => p == c && likeMatch ps s'

/-- Character-list case folding (ASCII, as in the data this system stores). -/
def lowerList (l : List Char) : List Char := l.map Char.toLower

/-- `column ILIKE '%filter%'`: case-insensitive LIKE against the pattern built
from the filter string; a NULL column never matches. -/
def ilike (column : Option String) (filt : String) : Bool :=
  match column with
  | none => false
  | some v => likeMatch (lowerList ("%" ++ filt ++ "%").data) (lowerList v.data)

/-- A query parameter is applied only when truthy (`if status_filter:`). -/
def applyFilter (f : Option String) (test : String → Bool) : Bool :=
  match f with
  | none => true
  | some s => if s == "" then true else test s

/-- The WHERE clause assembled by `get_requisitions`: conjunction of the
supplied filters (status and user id by `=`, basin and group by `ILIKE`). -/
def matchesFilters (statusF userIdF basinF groupF : Option String) (r : Requisition) : Bool :=
  applyFilter statusF (fun s => r.status == s) &&
  applyFilter userIdF (fun u => r.requested_by_user_id == some u) &&
  applyFilter basinF (fun b => ilike r.basin b) &&
  applyFilter groupF (fun g => ilike r.user_group g)

/-- Ordering relation realizing `ORDER BY created_at DESC`. -/
def newerFirst (a b : Requisition) : Prop := b.created_at ≤ a.created_at

instance : DecidableRel newerFirst := fun a b => Nat.decLe b.created_at a.created_at

instance : IsTotal Requisition newerFirst :=
  ⟨fun a b => Nat.le_total b.created_at a.created_at⟩

instance : IsTrans Requisition newerFirst :=
  ⟨fun _ _ _ hab hbc => Nat.le_trans hbc hab⟩

/-- `get_requisitions` (GET /api/requisitions): rows passing every supplied
filter, ordered by `created_at` descending (a stable sort; the SQL names no
further sort key). -/
def get_requisitions (store : Store) (statusF userIdF basinF groupF : Option String) :
    List Requisition :=
  (store.filter (matchesFilters statusF userIdF basinF groupF)).insertionSort newerFirst

/-- Rendering of an optional-string column value in the PDF: the row dict
always contains every column key, so `req_dict.get(key, 'N/A')` returns the
column value and a NULL renders via `str(None)` as `"None"`. -/
def displayOpt (o : Option String) : String := pyStr o

/-- The `isoformat()` rendering of a timestamp, abstracted to `toString`. -/
def isoNat (t : Nat) : String := toString t

/-- Rendering of the nullable `decision_at` timestamp: `isoformat()` when set,
`str(None)` when NULL. -/
def displayOptTime : Option Nat → String
  | none => "None"
  | some t => isoNat t

/-- The humanized status line: `status.replace('_', ' ').title()`. -/
def statusDisplay (r : Requisition) : String := pyTitle (underscoreToSpace r.status)

/-- The `Approved/Denied By` line: `name or cpf_id or 'N/A'` (Python `or` chain). -/
def approvedDeniedBy (r : Requisition) : String :=
  pyOrDefault r.approved_by_level2_user_name
    (pyOrDefault r.approved_by_level2_user_cpf_id "N/A")

/-- The label/value pairs written by `download_requisition_pdf`, in source order. -/
def projection (r : Requisition) : List (String × String) :=
  [("Requisition ID", r.id),
   ("Date of Requisition", displayOpt r.requisition_date),
   ("Basin", displayOpt r.basin),
   ("Block", displayOpt r.block),
   ("Area", displayOpt r.area),
   ("2D/3D", displayOpt r.dimension),
   ("Return Date (Data to GMS)", displayOpt r.return_date),
   ("Type of Data Required", displayOpt r.data_type),
   ("Objective", displayOpt r.objective),
   ("Remarks", displayOpt r.remarks),
   ("Name", displayOpt r.user_name),
   ("Designation", displayOpt r.user_designation),
   ("CPF No.", displayOpt r.user_cpf_no),
   ("Mobile No.", displayOpt r.user_mobile_no),
   ("Group", displayOpt r.user_group),
   ("Status", statusDisplay r),
   ("Approved/Denied By", approvedDeniedBy r),
   ("Decision Date", displayOptTime r.decision_at)]

/-- Does `n` occur at the start of `h`? (helper for the spec-side substring test). -/
def startsList : List Char → List Char → Bool
  | [], _ => true
  | _ :: _, [] => false
  | a :: as, b :: bs => a == b && startsList as bs

/-- Does `n` occur contiguously anywhere in `h`? -/
def subList (n : List Char) : List Char → Bool
  | [] => n.isEmpty
  | c :: hs => startsList n (c :: hs) || subList n hs

/-- Written from the spec's words, for comparison with the source's `ILIKE`
filter: a case-insensitive substring match of the filter in the column value. -/
def ciSubstringSpec (needle hay : String) : Bool :=
  subList (lowerList needle.data) (lowerList hay.data)

/-- One invocation of a lifecycle operation, with its nondeterministic inputs
(fresh id, clock reading) made explicit. -/
inductive Op where
  | submit (inp : SubmitInput) (newId : String) (now : Nat)
  | decide (reqId : String) (newStatus : Option String) (dId dCpf dName : Option String) (now : Nat)
  deriving Repr

/-- The store after one operation (errors leave the store as returned by the code). -/
def applyOp (s : Store) : Op → Store
  | .submit inp newId now => (create_requisition s inp newId now).2
  | .decide rid st d c n t => (update_requisition_status s rid st d c n t).2

/-- The store reached from the empty table by a sequence of operations. -/
def runOps (ops : List Op) : Store := ops.foldl applyOp []

/-- The decision-field invariant asserted by the spec: either all four decision
columns are NULL and the status is `pending_level2`, or all four are populated
and the status is terminal (not `pending_level2`). -/
def decisionFieldsConsistent (r : Requisition) : Prop :=
  (r.approved_by_level2_user_id = none ∧ r.approved_by_level2_user_cpf_id = none ∧
   r.approved_by_level2_user_name = none ∧ r.decision_at = none ∧
   r.status = "pending_level2") ∨
  (r.approved_by_level2_user_id.isSome ∧ r.approved_by_level2_user_cpf_id.isSome ∧
   r.approved_by_level2_user_name.isSome ∧ r.decision_at.isSome ∧
   r.status ≠ "pending_level2")

instance (r : Requisition) : Decidable (decisionFieldsConsistent r) := by
  unfold decisionFieldsConsistent
  infer_instance

/-- A Decide invocation that supplies the full decider identity and a terminal
status; Submit invocations are unrestricted. -/
def goodOp : Op → Bool
  | .submit _ _ _ => true
  | .decide _ st d c n _ =>
    !truthy st ||
      (!(pyStr st == "pending_level2") && d.isSome && c.isSome && n.isSome)

/-- A fully-populated valid Submit body, used as a concrete test fixture. -/
def inp0 : SubmitInput :=
  { requisitionDate := some "2024-01-02"
    basin := some "NorthSea-A"
    block := some "B7"
    area := some "Area51"
    dimension := some "3D"
    returnDate := some "2024-06-01"
    dataType := some "seismic"
    objective := some "exploration study"
    remarks := some "urgent"
    userName := some "Alice"
    userDesignation := some "Geologist"
    userCPFNo := some "CPF123"
    userMobileNo := some "555-0101"
    userGroup := some "GeoGroup"
    requestedByUserId := some "u-1"
    requestedByUserCpfId := some "CPF123"
    title := none
    description := none }

/-- A Submit body carrying only the four mandatory fields. -/
def inpMin : SubmitInput :=
  { requisitionDate := none
    basin := some "B1"
    block := none
    area := none
    dimension := none
    returnDate := none
    dataType := none
    objective := none
    remarks := none
    userName := none
    userDesignation := none
    userCPFNo := some "C1"
    userMobileNo := none
    userGroup := none
    requestedByUserId := none
    requestedByUserCpfId := none
    title := none
    description := none }

/-- `inpMin` with the remaining two mandatory fields supplied. -/
def inpMin4 : SubmitInput := { inpMin with userMobileNo := some "M1", userGroup := some "G1" }

/-- A baseline row, overridden field-by-field in the concrete test stores. -/
def baseReq : Requisition :=
  { id := "r0"
    title := none
    description := none
    requisition_date := none
    basin := none
    block := none
    area := none
    dimension := none
    return_date := none
    data_type := none
    objective := none
    remarks := none
    user_name := none
    user_designation := none
    user_cpf_no := none
    user_mobile_no := none
    user_group := none
    requested_by_user_id := none
    requested_by_user_cpf_id := none
    status := "pending_level2"
    created_at := 0
    approved_by_level2_user_id := none
    approved_by_level2_user_cpf_id := none
    approved_by_level2_user_name := none
    decision_at := none }

/-! ### Shared lemmas -/

theorem truthy_some_true {s : String} (h : s ≠ "") : truthy (some s) = true := by
  simp [truthy, h]

theorem find?_mandatory_none {inp : SubmitInput}
    (hvalid : ∀ f ∈ mandatory_fields, truthy (mandatoryValue inp f)) :
    mandatory_fields.find? (fun f => !truthy (mandatoryValue inp f)) = none := by
  rw [List.find?_eq_none]
  intro f hf
  simpa using hvalid f hf

theorem submit_fails_of_missing {store : Store} {inp : SubmitInput} {newId : String} {now : Nat}
    (hmiss : ∃ f ∈ mandatory_fields, ¬ truthy (mandatoryValue inp f)) :
    ∃ f ∈ mandatory_fields, ¬ truthy (mandatoryValue inp f) ∧
      create_requisition store inp newId now = (.error (.validation (missingMsg f)), store) := by
  obtain ⟨f, hf, hp⟩ := hmiss
  have hsome : (mandatory_fields.find? (fun f => !truthy (mandatoryValue inp f))).isSome := by
    rw [List.find?_isSome]
    exact ⟨f, hf, by simpa using hp⟩
  obtain ⟨g, hg⟩ := Option.isSome_iff_exists.mp hsome
  refine ⟨g, List.mem_of_find?_eq_some hg, by simpa using List.find?_some hg, ?_⟩
  simp [create_requisition, hg]

theorem update_ok {store : Store} {rid s : String} {d c n : Option String} {t : Nat}
    (hs : s ≠ "") (hex : store.any (fun r => r.id == rid) = true) :
    update_requisition_status store rid (some s) d c n t =
      (.ok (), store.map (fun r =>
        if r.id == rid then
          { r with
            status := s
            approved_by_level2_user_id := d
            approved_by_level2_user_cpf_id := c
            approved_by_level2_user_name := n
            decision_at := some t }
        else r)) := by
  simp [update_requisition_status, truthy, hs, hex, pyStr]

/-! ### C1: Submit on valid input -/

/-- C1: for every valid submission (all mandatory fields present), Submit
assigns the freshly generated identifier, sets status exactly to
`pending_level2`, sets `createdAt` to the current time, persists exactly one
new record, and leaves all four decision fields null. -/
theorem submit_valid_creates_pending (store : Store) (inp : SubmitInput) (newId : String)
    (now : Nat) (hvalid : ∀ f ∈ mandatory_fields, truthy (mandatoryValue inp f)) :
    ∃ r : Requisition,
      create_requisition store inp newId now = (.ok r, store ++ [r]) ∧
      r.id = newId ∧
      r.status = "pending_level2" ∧
      r.created_at = now ∧
      r.approved_by_level2_user_id = none ∧
      r.approved_by_level2_user_cpf_id = none ∧
      r.approved_by_level2_user_name = none ∧
      r.decision_at = none := by
  have hnone := find?_mandatory_none hvalid
  simp only [create_requisition, hnone]
  exact ⟨_, rfl, rfl, rfl, rfl, rfl, rfl, rfl, rfl⟩

/-- Witness for C1 at the concrete fixture `inp0`. -/
theorem submit_valid_creates_pending_witness :
    ∃ r : Requisition,
      create_requisition [] inp0 "id0" 42 = (.ok r, [] ++ [r]) ∧
      r.id = "id0" ∧
      r.status = "pending_level2" ∧
      r.created_at = 42 ∧
      r.approved_by_level2_user_id = none ∧
      r.approved_by_level2_user_cpf_id = none ∧
      r.approved_by_level2_user_name = none ∧
      r.decision_at = none :=
  submit_valid_creates_pending [] inp0 "id0" 42 (by decide)

/-! ### C2: Decide is unconditional and overwrites -/

theorem update_char {store : Store} {rid s : String} {d c n : Option String} {t : Nat}
    (hs : s ≠ "") (hex : store.any (fun r => r.id == rid) = true) :
    (update_requisition_status store rid (some s) d c n t).1 = .ok () ∧
    (∀ r ∈ (update_requisition_status store rid (some s) d c n t).2, r.id = rid →
      r.status = s ∧ r.approved_by_level2_user_id = d ∧
      r.approved_by_level2_user_cpf_id = c ∧ r.approved_by_level2_user_name = n ∧
      r.decision_at = some t) ∧
    ((update_requisition_status store rid (some s) d c n t).2.any
      (fun r => r.id == rid) = true) := by
  rw [update_ok hs hex]
  refine ⟨rfl, ?_, ?_⟩
  · intro r hr hid
    obtain ⟨r0, hr0, rfl⟩ := List.mem_map.mp hr
    by_cases h : r0.id = rid
    · simp [h]
    · have hb : (r0.id == rid) = false := by simpa using h
      simp only [hb, if_false] at hid ⊢
      exact absurd hid h
  · rw [List.any_eq_true] at hex ⊢
    obtain ⟨x, hx, hpx⟩ := hex
    refine ⟨_, List.mem_map_of_mem _ hx, ?_⟩
    simp [hpx]

/-- C2: Decide is unconditional. For any store containing the requisition and
any non-empty status string, Decide succeeds and sets the status to exactly
that string with no precondition on the prior status, and a second Decide on
the same record succeeds again and overwrites the status, all three decider
identity fields, and `decisionAt` with the second call's values. -/
theorem decide_is_unconditional (store : Store) (rid s1 s2 : String)
    (d1 c1 n1 d2 c2 n2 : Option String) (t1 t2 : Nat)
    (hex : store.any (fun r => r.id == rid) = true) (h1 : s1 ≠ "") (h2 : s2 ≠ "") :
    (update_requisition_status store rid (some s1) d1 c1 n1 t1).1 = .ok () ∧
    (∀ r ∈ (update_requisition_status store rid (some s1) d1 c1 n1 t1).2, r.id = rid →
      r.status = s1 ∧ r.approved_by_level2_user_id = d1 ∧
      r.approved_by_level2_user_cpf_id = c1 ∧ r.approved_by_level2_user_name = n1 ∧
      r.decision_at = some t1) ∧
    (update_requisition_status (update_requisition_status store rid (some s1) d1 c1 n1 t1).2
      rid (some s2) d2 c2 n2 t2).1 = .ok () ∧
    (∀ r ∈ (update_requisition_status (update_requisition_status store rid (some s1) d1 c1 n1 t1).2
      rid (some s2) d2 c2 n2 t2).2, r.id = rid →
      r.status = s2 ∧ r.approved_by_level2_user_id = d2 ∧
      r.approved_by_level2_user_cpf_id = c2 ∧ r.approved_by_level2_user_name = n2 ∧
      r.decision_at = some t2) := by
  obtain ⟨hok1, hchar1, hany1⟩ := update_char h1 hex (d := d1) (c := c1) (n := n1) (t := t1)
  obtain ⟨hok2, hchar2, _⟩ := update_char h2 hany1 (d := d2) (c := c2) (n := n2) (t := t2)
  exact ⟨hok1, hchar1, hok2, hchar2⟩

/-- Witness for C2: two successive decisions on the same concrete record, the
first to a non-vocabulary status, the second overwriting it. -/
theorem decide_is_unconditional_witness :
    (update_requisition_status [baseReq] "r0" (some "escalated") (some "u1") (some "c1")
      (some "n1") 4).1 = .ok () ∧
    (∀ r ∈ (update_requisition_status [baseReq] "r0" (some "escalated") (some "u1") (some "c1")
      (some "n1") 4).2, r.id = "r0" →
      r.status = "escalated" ∧ r.approved_by_level2_user_id = some "u1" ∧
      r.approved_by_level2_user_cpf_id = some "c1" ∧ r.approved_by_level2_user_name = some "n1" ∧
      r.decision_at = some 4) ∧
    (update_requisition_status
      (update_requisition_status [baseReq] "r0" (some "escalated") (some "u1") (some "c1")
        (some "n1") 4).2
      "r0" (some "denied") (some "u2") (some "c2") (some "n2") 9).1 = .ok () ∧
    (∀ r ∈ (update_requisition_status
      (update_requisition_status [baseReq] "r0" (some "escalated") (some "u1") (some "c1")
        (some "n1") 4).2
      "r0" (some "denied") (some "u2") (some "c2") (some "n2") 9).2, r.id = "r0" →
      r.status = "denied" ∧ r.approved_by_level2_user_id = some "u2" ∧
      r.approved_by_level2_user_cpf_id = some "c2" ∧ r.approved_by_level2_user_name = some "n2" ∧
      r.decision_at = some 9) :=
  decide_is_unconditional [baseReq] "r0" "escalated" "denied"
    (some "u1") (some "c1") (some "n1") (some "u2") (some "c2") (some "n2") 4 9
    (by decide) (by decide) (by decide)

/-! ### C3: Decide on a nonexistent id -/

/-- C3: for every requisition id matching no record, Decide with a non-empty
status fails with the not-found error (a constructor distinct from validation
errors) and returns the store unchanged. -/
theorem decide_missing_not_found (store : Store) (rid s : String) (d c n : Option String)
    (t : Nat) (hs : s ≠ "") (habs : store.any (fun r => r.id == rid) = false) :
    update_requisition_status store rid (some s) d c n t =
      (.error (.notFound "Requisition not found"), store) ∧
    ∀ msg, (RErr.notFound "Requisition not found") ≠ RErr.validation msg := by
  constructor
  · simp [update_requisition_status, truthy, hs, habs]
  · intro msg h
    cases h

/-- Witness for C3 on a store not containing the requested id. -/
theorem decide_missing_not_found_witness :
    update_requisition_status [baseReq] "nope" (some "approved") none none none 3 =
      (.error (.notFound "Requisition not found"), [baseReq]) ∧
    ∀ msg, (RErr.notFound "Requisition not found") ≠ RErr.validation msg :=
  decide_missing_not_found [baseReq] "nope" "approved" none none none 3 (by decide) (by decide)

/-! ### C4: Submit with a missing mandatory field -/

/-- C4: whenever any of basin, requester CPF number, requester mobile number
or requester group is absent (falsy), Submit fails with a validation error
whose message names a missing mandatory field in human-readable form
(`"Mandatory field 'X' is missing"` with `X` the capitalized, de-underscored
field name), and the store is unchanged. -/
theorem submit_missing_mandatory_fails (store : Store) (inp : SubmitInput) (newId : String)
    (now : Nat) (hmiss : ∃ f ∈ mandatory_fields, ¬ truthy (mandatoryValue inp f)) :
    ∃ f ∈ mandatory_fields, ¬ truthy (mandatoryValue inp f) ∧
      create_requisition store inp newId now = (.error (.validation (missingMsg f)), store) :=
  submit_fails_of_missing hmiss

/-- Witness for C4: dropping the basin from a valid submission fails with the
message naming Basin and persists nothing. -/
theorem submit_missing_mandatory_fails_witness :
    (∃ f ∈ mandatory_fields, ¬ truthy (mandatoryValue { inp0 with basin := none } f) ∧
      create_requisition [] { inp0 with basin := none } "id0" 1 =
        (.error (.validation (missingMsg f)), [])) ∧
    missingMsg "basin" = "Mandatory field " ++ squote ++ "Basin" ++ squote ++ " is missing" :=
  ⟨submit_missing_mandatory_fails [] { inp0 with basin := none } "id0" 1 (by decide), by decide⟩

/-! ### C9: derived title and description -/

theorem update_preserves_title_description (s : Store) (rid : String)
    (ns d c n : Option String) (t : Nat) :
    (update_requisition_status s rid ns d c n t).2.map (fun x => (x.title, x.description)) =
      s.map (fun x => (x.title, x.description)) := by
  cases htr : truthy ns
  · simp [update_requisition_status, htr]
  · by_cases hany : s.any (fun r => r.id == rid) = true
    · simp only [update_requisition_status, htr, Bool.not_true, Bool.false_eq_true,
        if_false, hany, if_true, List.map_map]
      refine List.map_congr_left ?_
      intro x _
      by_cases h : x.id = rid <;> simp [h]
    · simp [update_requisition_status, htr, hany]

/-- C9: when title or description is not supplied, Submit stores the derived
value computed at creation time (title from basin and area, description from
objective), and Decide never rewrites the stored title or description of any
record. -/
theorem submit_derived_fields (store : Store) (inp : SubmitInput) (newId : String) (now : Nat)
    (hvalid : ∀ f ∈ mandatory_fields, truthy (mandatoryValue inp f))
    (htitle : inp.title = none) (hdesc : inp.description = none) :
    (∃ r : Requisition,
      create_requisition store inp newId now = (.ok r, store ++ [r]) ∧
      r.title = some ("Requisition for " ++ pyStr inp.basin ++ " - " ++
        pyOrDefault inp.area "N/A") ∧
      r.description = inp.objective) ∧
    ∀ (s : Store) (rid : String) (ns d c n : Option String) (t : Nat),
      (update_requisition_status s rid ns d c n t).2.map (fun x => (x.title, x.description)) =
        s.map (fun x => (x.title, x.description)) := by
  constructor
  · have hnone := find?_mandatory_none hvalid
    simp only [create_requisition, hnone]
    refine ⟨_, rfl, ?_, ?_⟩
    · simp [computedTitle, htitle, titleDefault]
    · simp [computedDescription, hdesc]
  · exact update_preserves_title_description

/-- Witness for C9 at `inp0` (title and description both absent there). -/
theorem submit_derived_fields_witness :
    (∃ r : Requisition,
      create_requisition [] inp0 "id9" 11 = (.ok r, [] ++ [r]) ∧
      r.title = some ("Requisition for " ++ pyStr inp0.basin ++ " - " ++
        pyOrDefault inp0.area "N/A") ∧
      r.description = inp0.objective) ∧
    ∀ (s : Store) (rid : String) (ns d c n : Option String) (t : Nat),
      (update_requisition_status s rid ns d c n t).2.map (fun x => (x.title, x.description)) =
        s.map (fun x => (x.title, x.description)) :=
  submit_derived_fields [] inp0 "id9" 11 (by decide) (by decide) (by decide)

/-! ### C10: an empty mandatory field behaves like an absent one -/

theorem find?_congr_local {α : Type} {p q : α → Bool} :
    ∀ (l : List α), (∀ a ∈ l, p a = q a) → l.find? p = l.find? q
  | [], _ => rfl
  | a :: l, h => by
    simp only [List.find?]
    rw [h a (List.mem_cons_self a l)]
    cases q a
    · exact find?_congr_local l (fun x hx => h x (List.mem_cons_of_mem a hx))
    · rfl

theorem submit_eq_of_mandatory_agree {store : Store} {newId : String} {now : Nat}
    {inp inp' : SubmitInput}
    (hagree : ∀ f ∈ mandatory_fields,
      truthy (mandatoryValue inp f) = truthy (mandatoryValue inp' f))
    (hmiss : ∃ f ∈ mandatory_fields, ¬ truthy (mandatoryValue inp f)) :
    create_requisition store inp newId now = create_requisition store inp' newId now := by
  have hfind : mandatory_fields.find? (fun f => !truthy (mandatoryValue inp f)) =
      mandatory_fields.find? (fun f => !truthy (mandatoryValue inp' f)) :=
    find?_congr_local _ (fun f hf => by rw [hagree f hf])
  obtain ⟨f, hf, hp⟩ := hmiss
  have hsome : (mandatory_fields.find? (fun f => !truthy (mandatoryValue inp f))).isSome := by
    rw [List.find?_isSome]
    exact ⟨f, hf, by simpa using hp⟩
  obtain ⟨g, hg⟩ := Option.isSome_iff_exists.mp hsome
  have hg' : mandatory_fields.find? (fun f => !truthy (mandatoryValue inp' f)) = some g :=
    hfind ▸ hg
  simp [create_requisition, hg, hg']

/-- C10: supplying a mandatory field as the empty string is treated exactly
like omitting it: Submit produces the same outcome as for the input with the
field absent, namely the validation error naming a missing mandatory field,
and nothing is persisted. -/
theorem submit_empty_string_like_absent (store : Store) (inp : SubmitInput) (newId : String)
    (now : Nat) :
    (inp.basin = some "" →
      create_requisition store inp newId now =
        create_requisition store { inp with basin := none } newId now ∧
      ∃ f ∈ mandatory_fields, ¬ truthy (mandatoryValue inp f) ∧
        create_requisition store inp newId now = (.error (.validation (missingMsg f)), store)) ∧
    (inp.userCPFNo = some "" →
      create_requisition store inp newId now =
        create_requisition store { inp with userCPFNo := none } newId now ∧
      ∃ f ∈ mandatory_fields, ¬ truthy (mandatoryValue inp f) ∧
        create_requisition store inp newId now = (.error (.validation (missingMsg f)), store)) ∧
    (inp.userMobileNo = some "" →
      create_requisition store inp newId now =
        create_requisition store { inp with userMobileNo := none } newId now ∧
      ∃ f ∈ mandatory_fields, ¬ truthy (mandatoryValue inp f) ∧
        create_requisition store inp newId now = (.error (.validation (missingMsg f)), store)) ∧
    (inp.userGroup = some "" →
      create_requisition store inp newId now =
        create_requisition store { inp with userGroup := none } newId now ∧
      ∃ f ∈ mandatory_fields, ¬ truthy (mandatoryValue inp f) ∧
        create_requisition store inp newId now = (.error (.validation (missingMsg f)), store)) := by
  refine ⟨fun hb => ?_, fun hb => ?_, fun hb => ?_, fun hb => ?_⟩
  · have hagree : ∀ f ∈ mandatory_fields,
        truthy (mandatoryValue inp f) = truthy (mandatoryValue { inp with basin := none } f) := by
      intro f hf
      simp only [mandatory_fields, List.mem_cons, List.not_mem_nil, or_false] at hf
      rcases hf with rfl | rfl | rfl | rfl <;> simp [mandatoryValue, truthy, hb]
    have hmiss : ∃ f ∈ mandatory_fields, ¬ truthy (mandatoryValue inp f) :=
      ⟨"basin", by simp [mandatory_fields], by simp [mandatoryValue, truthy, hb]⟩
    exact ⟨submit_eq_of_mandatory_agree hagree hmiss, submit_fails_of_missing hmiss⟩
  · have hagree : ∀ f ∈ mandatory_fields,
        truthy (mandatoryValue inp f) =
          truthy (mandatoryValue { inp with userCPFNo := none } f) := by
      intro f hf
      simp only [mandatory_fields, List.mem_cons, List.not_mem_nil, or_false] at hf
      rcases hf with rfl | rfl | rfl | rfl <;> simp [mandatoryValue, truthy, hb]
    have hmiss : ∃ f ∈ mandatory_fields, ¬ truthy (mandatoryValue inp f) :=
      ⟨"user_cpf_no", by simp [mandatory_fields], by simp [mandatoryValue, truthy, hb]⟩
    exact ⟨submit_eq_of_mandatory_agree hagree hmiss, submit_fails_of_missing hmiss⟩
  · have hagree : ∀ f ∈ mandatory_fields,
        truthy (mandatoryValue inp f) =
          truthy (mandatoryValue { inp with userMobileNo := none } f) := by
      intro f hf
      simp only [mandatory_fields, List.mem_cons, List.not_mem_nil, or_false] at hf
      rcases hf with rfl | rfl | rfl | rfl <;> simp [mandatoryValue, truthy, hb]
    have hmiss : ∃ f ∈ mandatory_fields, ¬ truthy (mandatoryValue inp f) :=
      ⟨"user_mobile_no", by simp [mandatory_fields], by simp [mandatoryValue, truthy, hb]⟩
    exact ⟨submit_eq_of_mandatory_agree hagree hmiss, submit_fails_of_missing hmiss⟩
  · have hagree : ∀ f ∈ mandatory_fields,
        truthy (mandatoryValue inp f) =
          truthy (mandatoryValue { inp with userGroup := none } f) := by
      intro f hf
      simp only [mandatory_fields, List.mem_cons, List.not_mem_nil, or_false] at hf
      rcases hf with rfl | rfl | rfl | rfl <;> simp [mandatoryValue, truthy, hb]
    have hmiss : ∃ f ∈ mandatory_fields, ¬ truthy (mandatoryValue inp f) :=
      ⟨"user_group", by simp [mandatory_fields], by simp [mandatoryValue, truthy, hb]⟩
    exact ⟨submit_eq_of_mandatory_agree hagree hmiss, submit_fails_of_missing hmiss⟩

/-- Witness for C10: a submission whose basin is the empty string is rejected
exactly like one with no basin at all. -/
theorem submit_empty_string_like_absent_witness :
    create_requisition [] { inp0 with basin := some "" } "idw" 2 =
      create_requisition [] { { inp0 with basin := some "" } with basin := none } "idw" 2 ∧
    ∃ f ∈ mandatory_fields, ¬ truthy (mandatoryValue { inp0 with basin := some "" } f) ∧
      create_requisition [] { inp0 with basin := some "" } "idw" 2 =
        (.error (.validation (missingMsg f)), []) :=
  (submit_empty_string_like_absent [] { inp0 with basin := some "" } "idw" 2).1 rfl

/-! ### C5: the decision-field all-or-nothing invariant -/

theorem update_snd_falsy {store : Store} {rid : String} {st d c n : Option String} {t : Nat}
    (htr : truthy st = false) :
    (update_requisition_status store rid st d c n t).2 = store := by
  simp [update_requisition_status, htr]

theorem update_snd_no_match {store : Store} {rid : String} {st d c n : Option String} {t : Nat}
    (hany : store.any (fun r => r.id == rid) = false) :
    (update_requisition_status store rid st d c n t).2 = store := by
  cases htr : truthy st
  · simp [update_requisition_status, htr]
  · simp [update_requisition_status, htr, hany]

theorem inv_applyOp {s : Store} {op : Op} (hop : goodOp op = true)
    (hs : ∀ r ∈ s, decisionFieldsConsistent r) :
    ∀ r ∈ applyOp s op, decisionFieldsConsistent r := by
  cases op with
  | submit inp newId now =>
    simp only [applyOp, create_requisition]
    cases hfind : mandatory_fields.find? (fun f => !truthy (mandatoryValue inp f)) with
    | some f => exact hs
    | none =>
      intro r hr
      rcases List.mem_append.mp hr with h | h
      · exact hs r h
      · simp only [List.mem_singleton] at h
        subst h
        exact Or.inl ⟨rfl, rfl, rfl, rfl, rfl⟩
  | decide rid st d c n t =>
    cases htr : truthy st with
    | false =>
      simp only [applyOp, update_snd_falsy htr]
      exact hs
    | true =>
      obtain ⟨s0, rfl⟩ : ∃ s0, st = some s0 := by
        cases st with
        | none => simp [truthy] at htr
        | some s0 => exact ⟨s0, rfl⟩
      have hs0 : s0 ≠ "" := by
        intro h
        subst h
        simp [truthy] at htr
      have hterm : (s0 == "pending_level2") = false ∧ d.isSome ∧ c.isSome ∧ n.isSome := by
        have := hop
        simp only [goodOp, htr, Bool.not_true, Bool.false_or, Bool.and_eq_true,
          Bool.not_eq_true', pyStr] at this
        exact ⟨this.1.1.1, this.1.1.2, this.1.2, this.2⟩
      by_cases hany : s.any (fun r => r.id == rid) = true
      · have hupd := update_ok (d := d) (c := c) (n := n) (t := t) hs0 hany
        simp only [applyOp, hupd]
        intro r hr
        obtain ⟨r0, hr0, rfl⟩ := List.mem_map.mp hr
        by_cases h : r0.id = rid
        · simp only [h, beq_self_eq_true, if_true]
          have hne : s0 ≠ "pending_level2" := by
            intro hcontra
            rw [hcontra] at hterm
            simpa using hterm.1
          exact Or.inr ⟨hterm.2.1, hterm.2.2.1, hterm.2.2.2, rfl, hne⟩
        · have hb : (r0.id == rid) = false := by simpa using h
          simp only [hb, if_false]
          exact hs r0 hr0
      · have hany' : s.any (fun r => r.id == rid) = false := by
          simpa using hany
        simp only [applyOp, update_snd_no_match hany']
        exact hs

theorem inv_foldl : ∀ (ops : List Op) (s : Store), (∀ op ∈ ops, goodOp op = true) →
    (∀ r ∈ s, decisionFieldsConsistent r) →
    ∀ r ∈ ops.foldl applyOp s, decisionFieldsConsistent r
  | [], _, _, hs => hs
  | op :: ops, s, hgood, hs => by
    simp only [List.foldl_cons]
    exact inv_foldl ops (applyOp s op)
      (fun o ho => hgood o (List.mem_cons_of_mem _ ho))
      (inv_applyOp (hgood op (List.mem_cons_self _ _)) hs)

/-- A trace that submits and then decides with the decider identity omitted,
as the HTTP caller is free to do. -/
def cexOps : List Op :=
  [.submit inp0 "id0" 0, .decide "id0" (some "approved") none none none 5]

/-- Counterexample to C5 as stated: after a Submit followed by a Decide whose
body omits the decider identity, the store holds a record with `decisionAt`
populated but the three decided-by fields null — the decision fields are
partially populated. -/
theorem decision_fields_partial_possible :
    ¬ ∀ r ∈ runOps cexOps, decisionFieldsConsistent r := by decide

/-- C5 amended: the all-or-nothing invariant holds for every store reachable
by Submits and by Decides that supply all three decider identity fields and a
status other than `pending_level2`; the engine itself does not enforce this,
since Decide stores exactly the caller-supplied identity while always setting
`decisionAt`. -/
theorem decision_fields_all_or_nothing (ops : List Op)
    (hgood : ∀ op ∈ ops, goodOp op = true) :
    ∀ r ∈ runOps ops, decisionFieldsConsistent r :=
  inv_foldl ops [] hgood (by simp)

/-- A trace whose Decide carries the full decider identity and a terminal status. -/
def goodOpsW : List Op :=
  [.submit inp0 "id0" 0, .decide "id0" (some "approved") (some "u") (some "c") (some "n") 7]

/-- Witness for the amended C5 on a concrete well-formed trace. -/
theorem decision_fields_all_or_nothing_witness :
    (∀ op ∈ goodOpsW, goodOp op = true) ∧
    ∀ r ∈ runOps goodOpsW, decisionFieldsConsistent r :=
  ⟨by decide, decision_fields_all_or_nothing goodOpsW (by decide)⟩

/-! ### C6: conjunctive filters -/

/-- A record whose basin contains the filter text only up to a `_` wildcard. -/
def cexBasinRec : Requisition := { baseReq with id := "w1", basin := some "axb" }

/-- Counterexample to C6 as stated: the basin filter is passed into a SQL
LIKE pattern, so the filter `a_b` (underscore a wildcard) returns the record
with basin `axb` although `a_b` is not a case-insensitive substring of `axb`. -/
theorem list_basin_not_substring_cex :
    get_requisitions [cexBasinRec] none none (some "a_b") none = [cexBasinRec] ∧
    ciSubstringSpec "a_b" (pyStr cexBasinRec.basin) = false := by decide

/-- The three records of the claim's concrete example. -/
def exA : Requisition :=
  { baseReq with id := "a", basin := some "NorthSea-A", status := "approved", created_at := 3 }

def exB : Requisition :=
  { baseReq with id := "b", basin := some "South", status := "approved", created_at := 2 }

def exC : Requisition :=
  { baseReq with
    id := "c"
    basin := some "NorthSea-B"
    status := "pending_level2"
    created_at := 1 }

/-- C6 amended: List combines its optional filters conjunctively — status and
requestedByUserId exactly, basin and userGroup case-insensitively against the
SQL LIKE pattern `%filter%` (so `%` and `_` inside the filter act as
wildcards; for filters free of `%`, `_` and backslash this is a substring
match): a record is returned iff it satisfies every supplied filter, and the
claim's concrete NorthSea example returns exactly the first record. -/
theorem list_filters_conjunctive (store : Store) (st uid ba gr : String)
    (hst : st ≠ "") (huid : uid ≠ "") (hba : ba ≠ "") (hgr : gr ≠ "") :
    (∀ r, r ∈ get_requisitions store (some st) (some uid) (some ba) (some gr) ↔
      (r ∈ store ∧ r.status = st ∧ r.requested_by_user_id = some uid ∧
       ilike r.basin ba = true ∧ ilike r.user_group gr = true)) ∧
    get_requisitions [exA, exB, exC] (some "approved") none (some "NorthSea") none = [exA] := by
  have hst' : (st == "") = false := by simpa using hst
  have huid' : (uid == "") = false := by simpa using huid
  have hba' : (ba == "") = false := by simpa using hba
  have hgr' : (gr == "") = false := by simpa using hgr
  constructor
  · intro r
    unfold get_requisitions
    rw [List.mem_insertionSort, List.mem_filter]
    simp [matchesFilters, applyFilter, hst', huid', hba', hgr', and_assoc]
  · decide

/-- A record matching all four filters of the C6 witness. -/
def exD : Requisition :=
  { baseReq with
    id := "d"
    basin := some "NorthSea-A"
    user_group := some "GeoGroup"
    requested_by_user_id := some "u-a"
    status := "approved"
    created_at := 4 }

/-- Witness for the amended C6: with all four filters supplied, a record
matching all of them is returned and one failing the status filter is not. -/
theorem list_filters_conjunctive_witness :
    (exD ∈ get_requisitions [exD, exC] (some "approved") (some "u-a") (some "northsea")
        (some "geo") ↔
      (exD ∈ [exD, exC] ∧ exD.status = "approved" ∧
        exD.requested_by_user_id = some "u-a" ∧
        ilike exD.basin "northsea" = true ∧ ilike exD.user_group "geo" = true)) ∧
    (exC ∈ get_requisitions [exD, exC] (some "approved") (some "u-a") (some "northsea")
        (some "geo") ↔
      (exC ∈ [exD, exC] ∧ exC.status = "approved" ∧
        exC.requested_by_user_id = some "u-a" ∧
        ilike exC.basin "northsea" = true ∧ ilike exC.user_group "geo" = true)) :=
  ⟨(list_filters_conjunctive [exD, exC] "approved" "u-a" "northsea" "geo"
      (by decide) (by decide) (by decide) (by decide)).1 exD,
   (list_filters_conjunctive [exD, exC] "approved" "u-a" "northsea" "geo"
      (by decide) (by decide) (by decide) (by decide)).1 exC⟩

/-! ### C7: ordering of List results -/

/-- Records created at times 1 < 2 < 3, inserted oldest first. -/
def t1 : Requisition := { baseReq with id := "t1", created_at := 1 }

def t2 : Requisition := { baseReq with id := "t2", created_at := 2 }

def t3 : Requisition := { baseReq with id := "t3", created_at := 3 }

/-- C7: an unfiltered List returns every record, ordered descending by
`createdAt` (each element is at least as new as all later ones); on the
concrete store created at times 1 < 2 < 3 it returns exactly the order
T3, T2, T1. The embedding's sort is deterministic; the source SQL orders by
`created_at` alone, so ties carry no further specified key. -/
theorem list_ordering (store : Store) :
    (get_requisitions store none none none none).Pairwise newerFirst ∧
    (∀ r, r ∈ get_requisitions store none none none none ↔ r ∈ store) ∧
    get_requisitions [t1, t2, t3] none none none none = [t3, t2, t1] := by
  refine ⟨?_, ?_, by decide⟩
  · exact List.sorted_insertionSort newerFirst _
  · intro r
    unfold get_requisitions
    rw [List.mem_insertionSort, List.mem_filter]
    simp [matchesFilters, applyFilter]

/-! ### C8: document projection of NULL fields -/

/-- The record created by submitting only the mandatory fields: block, area,
dates, remarks and the rest are NULL, and no decision was taken. -/
def minRec : Requisition := ((create_requisition [] inpMin4 "p1" 0).2).headD baseReq

/-- C8: evaluation of the document projection at a record with NULL optional
fields. The humanized status (`pending_level2` → `"Pending Level2"`) and the
or-chained `Approved/Denied By` line behave as the spec says, but every other
missing optional field renders as `"None"` (Python `str(None)`), not as the
`"N/A"` placeholder: the row dict always contains every column key, so the
`'N/A'` default of `req_dict.get(key, 'N/A')` can never fire. -/
theorem render_null_optional_shows_none :
    (projection minRec).lookup "Block" = some "None" ∧
    (projection minRec).lookup "Remarks" = some "None" ∧
    (projection minRec).lookup "Date of Requisition" = some "None" ∧
    (projection minRec).lookup "Decision Date" = some "None" ∧
    (projection minRec).lookup "Status" = some "Pending Level2" ∧
    (projection minRec).lookup "Approved/Denied By" = some "N/A" := by decide

end Requis
